import Mathlib

/-!
Verification development for the primrose-mcp-googledocs repository: a shallow
embedding of the Google Docs API client (HTTP error classification, the
append-text read-then-insert compound operation, and the batch-update request
construction of every client method) and of the MCP tool handlers that the
spec's testable properties talk about.

Conventions of the embedding:
- JavaScript numbers that the code only ever treats as integers (document
  indices, HTTP status codes, retry-after seconds) are Int / Nat; numbers that
  may be fractional (font sizes, image dimensions) are Rat.
- JavaScript `undefined`-able values are Option; JS truthiness on strings and
  numbers is modelled explicitly (empty string and 0 are falsy).
- Thrown typed errors are the error channel of Except.
- The entity type definitions (types/entities.ts), the error classes
  (utils/errors.ts) and the envelope formatters (utils/formatters.ts) are not
  among the provided sources; the few facts needed about them are modelled
  from the spec and marked as such in the doc comments.
-/

namespace GDocs

/-! ## JavaScript primitive models -/

/-- JS truthiness of a possibly absent string: `undefined`, `null` and the
empty string are falsy. -/
def jsTruthy : Option String → Bool
  | none => false
  | some s => !(s == "")

/-- Numeric value of a decimal digit character. -/
def digitVal (c : Char) : Nat := c.toNat - 48

/-- Value of a list of decimal digit characters, most significant first. -/
def digitsToNat (cs : List Char) : Nat :=
  cs.foldl (fun a c => a * 10 + digitVal c) 0

/-- Model of JS `parseInt(s, 10)`: skip leading whitespace, read an optional
sign and then the longest prefix of decimal digits; `none` models NaN (no
digits found). Trailing garbage after the digits is ignored, as in JS. -/
def parseIntJS (s : String) : Option Int :=
  let cs := s.toList.dropWhile (fun c => c == ' ' || c == '\t' || c == '\n' || c == '\r')
  let core := fun (l : List Char) (sign : Int) =>
    let ds := l.takeWhile Char.isDigit
    if ds.isEmpty then none else some (sign * (digitsToNat ds : Int))
  match cs with
  | [] => none
  | c :: rest =>
    if c == '-' then core rest (-1)
    else if c == '+' then core rest 1
    else core (c :: rest) 1

/-- JS `a.x || b` for an optional string field `a.x`: absent and empty-string
values fall through to `b`. -/
def jsOrStr (a : Option String) (b : String) : String :=
  match a with
  | some s => if s == "" then b else s
  | none => b

/-- JS `x || d` for an optional number `x`: absent and 0 fall through to `d`. -/
def jsNumOr (x : Option Int) (d : Int) : Int :=
  match x with
  | none => d
  | some n => if n == 0 then d else n

/-! ## HTTP response classification (GoogleDocsClientImpl.request) -/

/-- Result of `JSON.parse` on a non-2xx response body, as far as the request
helper reads it: `errorMessage` is `errorJson.error?.message` and `topMessage`
is `errorJson.message`. -/
structure ErrorEnvelope where
  errorMessage : Option String
  topMessage : Option String
deriving DecidableEq, Repr

/-- The parts of an HTTP response that the request helper inspects: status,
the Retry-After header, and the body parsed as a JSON error envelope
(`none` when the body is not valid JSON). -/
structure HttpResponse where
  status : Nat
  retryAfterHeader : Option String
  bodyJson : Option ErrorEnvelope
deriving DecidableEq, Repr

/-- The typed failures thrown by the client
(AuthenticationError / RateLimitError / GoogleDocsApiError), plus a catch-all
for any other thrown value, as the tool handlers catch all of them alike. -/
inductive ClientError where
  | authFailure (message : String)
  | rateLimited (message : String) (retryAfter : Int)
  | apiFailure (message : String) (status : Nat)
  | other (message : String)
deriving DecidableEq, Repr

/-- The message carried by a client error. -/
def ClientError.message : ClientError → String
  | .authFailure m => m
  | .rateLimited m _ => m
  | .apiFailure m _ => m
  | .other m => m

/-- Successful outcome of the request helper: `empty` for the 204 path
(`undefined` result), `parsed` for the JSON-body path. -/
inductive RequestSuccess where
  | empty
  | parsed
deriving DecidableEq, Repr

/-- The retry-after argument the source passes to the RateLimitError
constructor: `retryAfter ? parseInt(retryAfter, 10) : 60`. An absent or
empty (falsy) header gives 60; otherwise the parseInt result, where `none`
models the JS NaN of an unparseable header. -/
def retryAfterArg (h : Option String) : Option Int :=
  match h with
  | none => some 60
  | some s => if s == "" then some 60 else parseIntJS s

/-- Modelled from the spec: the RateLimitError class lives in utils/errors.ts,
which is not among the provided sources; per the spec the error carries a
retry-after duration "defaulting to 60 seconds if absent/unparseable", so an
unparseable (NaN) argument resolves to 60. -/
def rateLimitRetryAfter (arg : Option Int) : Int := arg.getD 60

/-- The retry-after seconds carried by the RateLimitError raised for a 429
response with the given Retry-After header. -/
def resolveRetryAfter (h : Option String) : Int :=
  rateLimitRetryAfter (retryAfterArg h)

/-- JS `response.ok`: status in the range 200-299. -/
def responseOk (status : Nat) : Bool := 200 ≤ status && status ≤ 299

/-- The message of the GoogleDocsApiError raised for a non-ok response:
`errorJson.error?.message || errorJson.message || "API error: <status>"`,
with the generic message also used when the body is not valid JSON. -/
def apiErrorMessage (body : Option ErrorEnvelope) (status : Nat) : String :=
  let dflt := "API error: " ++ toString status
  match body with
  | none => dflt
  | some e => jsOrStr e.errorMessage (jsOrStr e.topMessage dflt)

/-- The request helper's classification of an HTTP response, in source order:
429 rate limit, then 401/403 authentication, then any non-ok status as an API
error, then 204 as empty success, else the body is parsed as JSON. -/
def requestStep (r : HttpResponse) : Except ClientError RequestSuccess :=
  if r.status == 429 then
    .error (.rateLimited "Rate limit exceeded" (resolveRetryAfter r.retryAfterHeader))
  else if r.status == 401 || r.status == 403 then
    .error (.authFailure "Authentication failed. Check your OAuth access token.")
  else if !(responseOk r.status) then
    .error (.apiFailure (apiErrorMessage r.bodyJson r.status) r.status)
  else if r.status == 204 then
    .ok .empty
  else
    .ok .parsed

/-! ## Document shape and the append-text insertion point -/

/-- A structural element of the document body, as far as appendText reads it:
only the optional endIndex field is inspected. -/
structure StructuralElement where
  endIndex : Option Int
deriving DecidableEq, Repr

/-- The document body: an optional list of structural elements. -/
structure Body where
  content : Option (List StructuralElement)
deriving DecidableEq, Repr

/-- The document, as far as the client reads it. The full entity (styles,
headers, named ranges and so on) is pass-through data the client never
inspects. -/
structure Document where
  documentId : Option String
  body : Option Body
deriving DecidableEq, Repr

/-- A document with no id and no body. -/
def emptyDoc : Document := { documentId := none, body := none }

/-- JS `doc.body?.content?.slice(-1)[0]`: the last structural element of the
body content, if any. -/
def lastContentElement (doc : Document) : Option StructuralElement :=
  match doc.body with
  | none => none
  | some b =>
    match b.content with
    | none => none
    | some l => l.getLast?

/-- JS `doc.body?.content?.slice(-1)[0]?.endIndex || 1`: the end index of the
last body block, defaulting to 1 when absent (or 0, which is falsy). -/
def appendEndIndex (doc : Document) : Int :=
  jsNumOr (Option.bind (lastContentElement doc) StructuralElement.endIndex) 1

/-- The insertion index appendText uses: `Math.max(1, endIndex - 1)`, placing
the text before the document's trailing implicit newline. -/
def appendInsertIndex (doc : Document) : Int :=
  max 1 (appendEndIndex doc - 1)

/-! ## Entity data shapes -/

/-- A magnitude with a unit, as in the source's `{ magnitude, unit: 'PT' }`
literals. -/
structure Dimension where
  magnitude : Rat
  unit : String
deriving DecidableEq, Repr

/-- A weighted font family reference, as built by the format_text handler. -/
structure WeightedFontFamily where
  fontFamily : String
deriving DecidableEq, Repr

/-- The text style fields the registered handlers actually populate.
Modelled from the spec: types/entities.ts is not among the provided sources;
per the spec the entities are pure data shapes with no behavior, so only the
fields the handlers write are represented. -/
structure TextStyle where
  bold : Option Bool := none
  italic : Option Bool := none
  underline : Option Bool := none
  strikethrough : Option Bool := none
  fontSize : Option Dimension := none
  weightedFontFamily : Option WeightedFontFamily := none
deriving DecidableEq, Repr

/-- The paragraph style fields the registered handlers actually populate.
Modelled from the spec, as for TextStyle. -/
structure ParagraphStyle where
  alignment : Option String := none
  namedStyleType : Option String := none
  lineSpacing : Option Rat := none
  spaceAbove : Option Dimension := none
  spaceBelow : Option Dimension := none
deriving DecidableEq, Repr

/-- Modelled from the spec: remaining style entities are opaque pass-through
data shapes the client never inspects; each is represented by its raw JSON
text. -/
structure TableCellStyle where
  raw : String
deriving DecidableEq, Repr

/-- Opaque pass-through data shape, as TableCellStyle. -/
structure TableRowStyle where
  raw : String
deriving DecidableEq, Repr

/-- Opaque pass-through data shape, as TableCellStyle. -/
structure TableColumnProperties where
  raw : String
deriving DecidableEq, Repr

/-- Opaque pass-through data shape, as TableCellStyle. -/
structure DocumentStyle where
  raw : String
deriving DecidableEq, Repr

/-- Opaque pass-through data shape, as TableCellStyle. -/
structure SectionStyle where
  raw : String
deriving DecidableEq, Repr

/-- One reply of a batch-update response; opaque to every claim here.
Modelled from the spec, as for TextStyle. -/
structure GReply where
  raw : String
deriving DecidableEq, Repr

/-- Modelled from the spec: a batch-update response carries the document id,
an ordered reply list positionally aligned with the submitted operations, and
an optional write-control token. -/
structure BatchUpdateResponse where
  documentId : String
  replies : Option (List GReply)
  writeControl : Option String
deriving DecidableEq, Repr

/-- A sample batch-update response used by concrete witnesses. -/
def sampleResponse : BatchUpdateResponse :=
  { documentId := "doc1", replies := some [], writeControl := none }

/-! ## The Operation union submitted through batchUpdate -/

/-- The tagged union of batch-update operations, one constructor per request
variant the client constructs, carrying exactly the fields the source's
object literals populate. -/
inductive GRequest where
  | insertText (text : String) (index : Int)
  | deleteContentRange (startIndex endIndex : Int)
  | replaceAllText (findText : String) (matchCase : Bool) (replaceText : String)
  | updateTextStyle (startIndex endIndex : Int) (textStyle : TextStyle) (fields : String)
  | updateParagraphStyle (startIndex endIndex : Int) (paragraphStyle : ParagraphStyle) (fields : String)
  | createParagraphBullets (startIndex endIndex : Int) (bulletPreset : Option String)
  | deleteParagraphBullets (startIndex endIndex : Int)
  | createNamedRange (name : String) (startIndex endIndex : Int)
  | deleteNamedRange (namedRangeId : Option String) (name : Option String)
  | replaceNamedRangeContent (namedRangeId : Option String) (namedRangeName : Option String) (text : String)
  | insertTable (rows columns : Int) (index : Int)
  | insertTableRow (tableStartIndex rowIndex columnIndex : Int) (insertBelow : Bool)
  | insertTableColumn (tableStartIndex rowIndex columnIndex : Int) (insertRight : Bool)
  | deleteTableRow (tableStartIndex rowIndex columnIndex : Int)
  | deleteTableColumn (tableStartIndex rowIndex columnIndex : Int)
  | mergeTableCells (tableStartIndex rowIndex columnIndex rowSpan columnSpan : Int)
  | unmergeTableCells (tableStartIndex rowIndex columnIndex rowSpan columnSpan : Int)
  | updateTableCellStyle (tableStartIndex rowIndex columnIndex rowSpan columnSpan : Int)
      (tableCellStyle : TableCellStyle) (fields : String)
  | updateTableRowStyle (tableStartIndex : Int) (rowIndices : List Int)
      (tableRowStyle : TableRowStyle) (fields : String)
  | updateTableColumnProperties (tableStartIndex : Int) (columnIndices : List Int)
      (tableColumnProperties : TableColumnProperties) (fields : String)
  | pinTableHeaderRows (tableStartIndex : Int) (pinnedHeaderRowsCount : Int)
  | insertInlineImage (uri : String) (index : Int) (objectSize : Option (Dimension × Dimension))
  | replaceImage (imageObjectId : String) (uri : String)
  | deletePositionedObject (objectId : String)
  | insertPageBreak (index : Int)
  | insertSectionBreak (index : Int) (sectionType : String)
  | createHeader (type : String) (sectionBreakLocation : Option Int)
  | createFooter (type : String) (sectionBreakLocation : Option Int)
  | deleteHeader (headerId : String)
  | deleteFooter (footerId : String)
  | createFootnote (index : Int)
  | updateDocumentStyle (documentStyle : DocumentStyle) (fields : String)
  | updateSectionStyle (startIndex endIndex : Int) (sectionStyle : SectionStyle) (fields : String)
deriving DecidableEq, Repr

/-! ## HTTP calls issued by the client -/

/-- The HTTP requests the client issues: a GET of a document, a document
creation POST to the documents collection, or a batch-update POST carrying an
operation list. These are the only three endpoint/method shapes in the
source. -/
inductive HttpCall where
  | getDoc (documentId : String)
  | postDocuments (title : String)
  | postBatchUpdate (documentId : String) (requests : List GRequest)
deriving DecidableEq, Repr

/-- Whether an HTTP call mutates remote state: the POSTs do, the GET does
not. -/
def HttpCall.isMutating : HttpCall → Bool
  | .getDoc _ => false
  | .postDocuments _ => true
  | .postBatchUpdate _ _ => true

/-- Whether an HTTP call is a batch-update submission. -/
def HttpCall.isBatchUpdateCall : HttpCall → Bool
  | .postBatchUpdate _ _ => true
  | _ => false

/-! ## The client method catalog and the calls each method issues -/

/-- JS `width && height ? { width: .., height: .. } : undefined` from
insertInlineImage: the size object is built only when both numbers are
present and truthy (0 is falsy). -/
def imageObjectSize (width height : Option Rat) : Option (Dimension × Dimension) :=
  match width, height with
  | some w, some h =>
    if w == 0 || h == 0 then none
    else some ({ magnitude := w, unit := "PT" }, { magnitude := h, unit := "PT" })
  | _, _ => none

/-- JS `sectionBreakIndex ? { index: sectionBreakIndex } : undefined` from
createHeader / createFooter: index 0 is falsy and yields no location. -/
def sectionBreakLoc (i : Option Int) : Option Int :=
  match i with
  | some n => if n == 0 then none else some n
  | none => none

/-- The public methods of the GoogleDocsClient interface, one constructor per
method with its arguments. -/
inductive ClientMethod where
  | testConnection
  | createDocument (title : String)
  | getDocument (documentId : String)
  | batchUpdate (documentId : String) (requests : List GRequest)
  | insertText (documentId : String) (text : String) (index : Int)
  | deleteContent (documentId : String) (startIndex endIndex : Int)
  | replaceAllText (documentId : String) (findText replaceText : String) (matchCase : Bool)
  | appendText (documentId : String) (text : String)
  | updateTextStyle (documentId : String) (startIndex endIndex : Int)
      (textStyle : TextStyle) (fields : String)
  | updateParagraphStyle (documentId : String) (startIndex endIndex : Int)
      (paragraphStyle : ParagraphStyle) (fields : String)
  | createParagraphBullets (documentId : String) (startIndex endIndex : Int)
      (bulletPreset : Option String)
  | deleteParagraphBullets (documentId : String) (startIndex endIndex : Int)
  | createNamedRange (documentId : String) (name : String) (startIndex endIndex : Int)
  | deleteNamedRange (documentId : String) (namedRangeId : Option String) (name : Option String)
  | replaceNamedRangeContent (documentId : String) (text : String)
      (namedRangeId : Option String) (namedRangeName : Option String)
  | insertTable (documentId : String) (rows columns : Int) (index : Int)
  | insertTableRow (documentId : String) (tableStartIndex rowIndex columnIndex : Int)
      (insertBelow : Bool)
  | insertTableColumn (documentId : String) (tableStartIndex rowIndex columnIndex : Int)
      (insertRight : Bool)
  | deleteTableRow (documentId : String) (tableStartIndex rowIndex columnIndex : Int)
  | deleteTableColumn (documentId : String) (tableStartIndex rowIndex columnIndex : Int)
  | mergeTableCells (documentId : String)
      (tableStartIndex rowIndex columnIndex rowSpan columnSpan : Int)
  | unmergeTableCells (documentId : String)
      (tableStartIndex rowIndex columnIndex rowSpan columnSpan : Int)
  | updateTableCellStyle (documentId : String)
      (tableStartIndex rowIndex columnIndex rowSpan columnSpan : Int)
      (tableCellStyle : TableCellStyle) (fields : String)
  | updateTableRowStyle (documentId : String) (tableStartIndex : Int) (rowIndices : List Int)
      (tableRowStyle : TableRowStyle) (fields : String)
  | updateTableColumnProperties (documentId : String) (tableStartIndex : Int)
      (columnIndices : List Int) (tableColumnProperties : TableColumnProperties) (fields : String)
  | pinTableHeaderRows (documentId : String) (tableStartIndex : Int)
      (pinnedHeaderRowsCount : Int)
  | insertInlineImage (documentId : String) (uri : String) (index : Int)
      (width height : Option Rat)
  | replaceImage (documentId : String) (imageObjectId : String) (uri : String)
  | deletePositionedObject (documentId : String) (objectId : String)
  | insertPageBreak (documentId : String) (index : Int)
  | insertSectionBreak (documentId : String) (index : Int) (sectionType : String)
  | createHeader (documentId : String) (type : String) (sectionBreakIndex : Option Int)
  | createFooter (documentId : String) (type : String) (sectionBreakIndex : Option Int)
  | deleteHeader (documentId : String) (headerId : String)
  | deleteFooter (documentId : String) (footerId : String)
  | createFootnote (documentId : String) (index : Int)
  | updateDocumentStyle (documentId : String) (documentStyle : DocumentStyle) (fields : String)
  | updateSectionStyle (documentId : String) (startIndex endIndex : Int)
      (sectionStyle : SectionStyle) (fields : String)
deriving DecidableEq, Repr

/-- Whether a client method is getDocument, the one read-only single-request
method. -/
def ClientMethod.isGetDocument : ClientMethod → Bool
  | .getDocument _ => true
  | _ => false

/-- Whether a client method is createDocument, the document-creation POST. -/
def ClientMethod.isCreateDocument : ClientMethod → Bool
  | .createDocument _ => true
  | _ => false

/-- Whether a client method is testConnection, which creates a test document
through createDocument. -/
def ClientMethod.isTestConnection : ClientMethod → Bool
  | .testConnection => true
  | _ => false

/-- The sequence of HTTP calls a client method issues, translated method by
method from the source. `fetched` is the document returned by the GET that
appendText performs first; every other method ignores it. -/
def clientCalls (fetched : Document) : ClientMethod → List HttpCall
  | .testConnection => [.postDocuments "MCP Connection Test"]
  | .createDocument title => [.postDocuments title]
  | .getDocument documentId => [.getDoc documentId]
  | .batchUpdate documentId requests => [.postBatchUpdate documentId requests]
  | .insertText documentId text index =>
    [.postBatchUpdate documentId [.insertText text index]]
  | .deleteContent documentId s e =>
    [.postBatchUpdate documentId [.deleteContentRange s e]]
  | .replaceAllText documentId f r mc =>
    [.postBatchUpdate documentId [.replaceAllText f mc r]]
  | .appendText documentId text =>
    [.getDoc documentId,
     .postBatchUpdate documentId [.insertText text (appendInsertIndex fetched)]]
  | .updateTextStyle documentId s e ts fields =>
    [.postBatchUpdate documentId [.updateTextStyle s e ts fields]]
  | .updateParagraphStyle documentId s e ps fields =>
    [.postBatchUpdate documentId [.updateParagraphStyle s e ps fields]]
  | .createParagraphBullets documentId s e preset =>
    [.postBatchUpdate documentId [.createParagraphBullets s e preset]]
  | .deleteParagraphBullets documentId s e =>
    [.postBatchUpdate documentId [.deleteParagraphBullets s e]]
  | .createNamedRange documentId name s e =>
    [.postBatchUpdate documentId [.createNamedRange name s e]]
  | .deleteNamedRange documentId namedRangeId name =>
    [.postBatchUpdate documentId [.deleteNamedRange namedRangeId name]]
  | .replaceNamedRangeContent documentId text namedRangeId namedRangeName =>
    [.postBatchUpdate documentId [.replaceNamedRangeContent namedRangeId namedRangeName text]]
  | .insertTable documentId rows columns index =>
    [.postBatchUpdate documentId [.insertTable rows columns index]]
  | .insertTableRow documentId t r c below =>
    [.postBatchUpdate documentId [.insertTableRow t r c below]]
  | .insertTableColumn documentId t r c right =>
    [.postBatchUpdate documentId [.insertTableColumn t r c right]]
  | .deleteTableRow documentId t r c =>
    [.postBatchUpdate documentId [.deleteTableRow t r c]]
  | .deleteTableColumn documentId t r c =>
    [.postBatchUpdate documentId [.deleteTableColumn t r c]]
  | .mergeTableCells documentId t r c rs cs =>
    [.postBatchUpdate documentId [.mergeTableCells t r c rs cs]]
  | .unmergeTableCells documentId t r c rs cs =>
    [.postBatchUpdate documentId [.unmergeTableCells t r c rs cs]]
  | .updateTableCellStyle documentId t r c rs cs style fields =>
    [.postBatchUpdate documentId [.updateTableCellStyle t r c rs cs style fields]]
  | .updateTableRowStyle documentId t rows style fields =>
    [.postBatchUpdate documentId [.updateTableRowStyle t rows style fields]]
  | .updateTableColumnProperties documentId t cols props fields =>
    [.postBatchUpdate documentId [.updateTableColumnProperties t cols props fields]]
  | .pinTableHeaderRows documentId t n =>
    [.postBatchUpdate documentId [.pinTableHeaderRows t n]]
  | .insertInlineImage documentId uri index width height =>
    [.postBatchUpdate documentId [.insertInlineImage uri index (imageObjectSize width height)]]
  | .replaceImage documentId imageObjectId uri =>
    [.postBatchUpdate documentId [.replaceImage imageObjectId uri]]
  | .deletePositionedObject documentId objectId =>
    [.postBatchUpdate documentId [.deletePositionedObject objectId]]
  | .insertPageBreak documentId index =>
    [.postBatchUpdate documentId [.insertPageBreak index]]
  | .insertSectionBreak documentId index sectionType =>
    [.postBatchUpdate documentId [.insertSectionBreak index sectionType]]
  | .createHeader documentId type sbi =>
    [.postBatchUpdate documentId [.createHeader type (sectionBreakLoc sbi)]]
  | .createFooter documentId type sbi =>
    [.postBatchUpdate documentId [.createFooter type (sectionBreakLoc sbi)]]
  | .deleteHeader documentId headerId =>
    [.postBatchUpdate documentId [.deleteHeader headerId]]
  | .deleteFooter documentId footerId =>
    [.postBatchUpdate documentId [.deleteFooter footerId]]
  | .createFootnote documentId index =>
    [.postBatchUpdate documentId [.createFootnote index]]
  | .updateDocumentStyle documentId style fields =>
    [.postBatchUpdate documentId [.updateDocumentStyle style fields]]
  | .updateSectionStyle documentId s e style fields =>
    [.postBatchUpdate documentId [.updateSectionStyle s e style fields]]

/-- Whether every mutating HTTP call a method issues goes through the
batch-update endpoint. -/
def mutatesOnlyThroughBatchUpdate (fetched : Document) (m : ClientMethod) : Bool :=
  (clientCalls fetched m).all fun c => !c.isMutating || c.isBatchUpdateCall

/-! ## Tool envelopes and handlers -/

/-- The data part of a success envelope: the raw client response, or the
empty object literal some handlers return without calling the client. -/
inductive ResponseData where
  | emptyObject
  | batch (response : BatchUpdateResponse)
deriving DecidableEq, Repr

/-- Modelled from the spec: utils/formatters.ts is not among the provided
sources; per the spec every handler returns a uniform envelope, a message
plus raw data on success, or the error message with an error flag on
failure. -/
structure ToolEnvelope where
  isError : Bool
  message : String
  data : Option ResponseData
deriving DecidableEq, Repr

/-- Modelled from the spec: the success envelope built by formatSuccess. -/
def formatSuccess (message : String) (data : ResponseData) : ToolEnvelope :=
  { isError := false, message := message, data := some data }

/-- Modelled from the spec: the error envelope built by formatError, carrying
the failure's message verbatim with the error flag set. -/
def formatError (e : ClientError) : ToolEnvelope :=
  { isError := true, message := e.message, data := none }

/-- The outcome of the one client call a handler makes: the parsed response,
or the typed error the client threw. -/
abbrev ClientOutcome := Except ClientError BatchUpdateResponse

/-- Whether a client outcome is a success. -/
def outcomeOk : ClientOutcome → Bool
  | .ok _ => true
  | .error _ => false

/-- The try/catch body shared by every registered handler: on a successful
client call build the success envelope from the response, on any thrown
error return formatError of it. -/
def handlerStep (onOk : BatchUpdateResponse → ToolEnvelope) (o : ClientOutcome) : ToolEnvelope :=
  match o with
  | .ok r => onOk r
  | .error e => formatError e

/-- The googledocs_batch_update handler body after validation: one
client.batchUpdate call wrapped in try/catch. -/
def batchUpdateHandler (documentId : String) (requests : List GRequest)
    (o : ClientOutcome) : ToolEnvelope × List HttpCall :=
  (handlerStep (fun r => formatSuccess "Batch update completed" (.batch r)) o,
   clientCalls emptyDoc (.batchUpdate documentId requests))

/-- The googledocs_update_text_style handler body after validation: one
client.updateTextStyle call wrapped in try/catch. -/
def updateTextStyleHandler (documentId : String) (startIndex endIndex : Int)
    (textStyle : TextStyle) (fields : String) (o : ClientOutcome) :
    ToolEnvelope × List HttpCall :=
  (handlerStep
    (fun r => formatSuccess
      ("Text style updated from " ++ toString startIndex ++ " to " ++ toString endIndex)
      (.batch r)) o,
   clientCalls emptyDoc (.updateTextStyle documentId startIndex endIndex textStyle fields))

/-! ## Schema validation for googledocs_insert_text -/

/-- A raw JSON argument value as the schema layer sees it. -/
inductive JsValue where
  | undef
  | str (value : String)
  | num (value : Rat)
  | boolean (value : Bool)
deriving DecidableEq, Repr

/-- Whether a raw value satisfies `z.string()`. -/
def JsValue.isStringValue : JsValue → Bool
  | .str _ => true
  | _ => false

/-- Whether a raw value satisfies `z.number().int().min(1)`: a number that is
an integer and at least 1. -/
def JsValue.isIntMin1 : JsValue → Bool
  | .num q => q.den == 1 && 1 ≤ q
  | _ => false

/-- The string content of a raw value, defaulting to the empty string. -/
def JsValue.strD : JsValue → String
  | .str s => s
  | _ => ""

/-- The integer content of a raw numeric value, defaulting to 0. -/
def JsValue.intD : JsValue → Int
  | .num q => q.num
  | _ => 0

/-- The raw input of the googledocs_insert_text tool before validation. -/
structure InsertTextRawInput where
  documentId : JsValue
  text : JsValue
  index : JsValue
deriving DecidableEq, Repr

/-- The declared input schema of googledocs_insert_text, translated field by
field from the source's zod declarations: documentId and text are strings,
index is an integer of at least 1. -/
def validInsertTextInput (i : InsertTextRawInput) : Bool :=
  i.documentId.isStringValue && i.text.isStringValue && i.index.isIntMin1

/-- Modelled from the spec: the structured rejection the caller receives when
schema validation fails, before the handler body runs. -/
def schemaRejection : ToolEnvelope :=
  { isError := true, message := "Invalid arguments", data := none }

/-- Full dispatch of a googledocs_insert_text call. The schema itself is the
source's zod declaration; that the declared schema is checked before the
handler body runs is modelled from the spec, the validation layer being part
of the MCP server library rather than of this repository. On validation
failure the handler body never runs and no HTTP call is made. -/
def dispatchInsertText (raw : InsertTextRawInput) (o : ClientOutcome) :
    ToolEnvelope × List HttpCall :=
  if validInsertTextInput raw then
    (handlerStep
      (fun r => formatSuccess
        ("Text inserted at index " ++ toString raw.index.intD) (.batch r)) o,
     clientCalls emptyDoc (.insertText raw.documentId.strD raw.text.strD raw.index.intD))
  else (schemaRejection, [])

/-! ## Named-range tool handlers -/

/-- The googledocs_delete_named_range handler: when neither identifier is
JS-truthy (absent or empty string) it returns a local error envelope and
makes no client call; otherwise it forwards both identifier fields verbatim
to client.deleteNamedRange. -/
def deleteNamedRangeHandler (documentId : String)
    (namedRangeId name : Option String) (o : ClientOutcome) :
    ToolEnvelope × List HttpCall :=
  if !(jsTruthy namedRangeId) && !(jsTruthy name) then
    ({ isError := true, message := "Either namedRangeId or name must be provided",
       data := none }, [])
  else
    (handlerStep
      (fun r => formatSuccess
        ("Named range " ++
          (if jsTruthy namedRangeId then "ID: " ++ namedRangeId.getD ""
           else "\"" ++ name.getD "undefined" ++ "\"") ++ " deleted")
        (.batch r)) o,
     clientCalls emptyDoc (.deleteNamedRange documentId namedRangeId name))

/-- The googledocs_replace_named_range_content handler: same local
precondition as deleteNamedRangeHandler, then one
client.replaceNamedRangeContent call forwarding both identifier fields
verbatim. The success message truncates the text at 50 characters as the
source does. -/
def replaceNamedRangeContentHandler (documentId : String) (text : String)
    (namedRangeId namedRangeName : Option String) (o : ClientOutcome) :
    ToolEnvelope × List HttpCall :=
  if !(jsTruthy namedRangeId) && !(jsTruthy namedRangeName) then
    ({ isError := true,
       message := "Either namedRangeId or namedRangeName must be provided",
       data := none }, [])
  else
    (handlerStep
      (fun r => formatSuccess
        ("Named range content replaced with \"" ++ text.take 50 ++
          (if 50 < text.length then "..." else "") ++ "\"")
        (.batch r)) o,
     clientCalls emptyDoc (.replaceNamedRangeContent documentId text namedRangeId namedRangeName))

/-! ## Formatting tool handlers -/

/-- The arguments of googledocs_format_text after schema validation: six
optional styling fields besides the ids and range. -/
structure FormatTextArgs where
  documentId : String
  startIndex : Int
  endIndex : Int
  bold : Option Bool
  italic : Option Bool
  underline : Option Bool
  strikethrough : Option Bool
  fontSize : Option Rat
  fontFamily : Option String
deriving DecidableEq, Repr

/-- The textStyle and fields list the format_text handler accumulates, one
conditional per optional argument in source order (`x !== undefined`
checks). -/
def buildFormatTextStyle (a : FormatTextArgs) : TextStyle × List String :=
  let acc : TextStyle × List String := ({}, [])
  let acc := match a.bold with
    | some b => ({ acc.1 with bold := some b }, acc.2 ++ ["bold"])
    | none => acc
  let acc := match a.italic with
    | some b => ({ acc.1 with italic := some b }, acc.2 ++ ["italic"])
    | none => acc
  let acc := match a.underline with
    | some b => ({ acc.1 with underline := some b }, acc.2 ++ ["underline"])
    | none => acc
  let acc := match a.strikethrough with
    | some b => ({ acc.1 with strikethrough := some b }, acc.2 ++ ["strikethrough"])
    | none => acc
  let acc := match a.fontSize with
    | some q => ({ acc.1 with fontSize := some { magnitude := q, unit := "PT" } },
                 acc.2 ++ ["fontSize"])
    | none => acc
  match a.fontFamily with
  | some f => ({ acc.1 with weightedFontFamily := some { fontFamily := f } },
               acc.2 ++ ["weightedFontFamily"])
  | none => acc

/-- The googledocs_format_text handler: if no optional styling argument was
given (empty fields list) it succeeds locally with no client call; otherwise
it makes one client.updateTextStyle call with the accumulated style and the
comma-joined fields string. -/
def formatTextHandler (a : FormatTextArgs) (o : ClientOutcome) :
    ToolEnvelope × List HttpCall :=
  let built := buildFormatTextStyle a
  if built.2.isEmpty then
    (formatSuccess "No formatting changes specified" .emptyObject, [])
  else
    (handlerStep
      (fun r => formatSuccess
        ("Text formatted from " ++ toString a.startIndex ++ " to " ++ toString a.endIndex)
        (.batch r)) o,
     clientCalls emptyDoc
       (.updateTextStyle a.documentId a.startIndex a.endIndex built.1
         (String.intercalate "," built.2)))

/-- The arguments of googledocs_format_paragraph after schema validation:
five optional styling fields besides the ids and range. -/
structure FormatParagraphArgs where
  documentId : String
  startIndex : Int
  endIndex : Int
  alignment : Option String
  headingType : Option String
  lineSpacing : Option Rat
  spaceAbove : Option Rat
  spaceBelow : Option Rat
deriving DecidableEq, Repr

/-- The paragraphStyle and fields list the format_paragraph handler
accumulates. The source guards alignment and headingType by truthiness
(`if (alignment)`) and the numeric fields by `!== undefined`. -/
def buildFormatParagraphStyle (a : FormatParagraphArgs) : ParagraphStyle × List String :=
  let acc : ParagraphStyle × List String := ({}, [])
  let acc := if jsTruthy a.alignment then
      ({ acc.1 with alignment := a.alignment }, acc.2 ++ ["alignment"])
    else acc
  let acc := if jsTruthy a.headingType then
      ({ acc.1 with namedStyleType := a.headingType }, acc.2 ++ ["namedStyleType"])
    else acc
  let acc := match a.lineSpacing with
    | some q => ({ acc.1 with lineSpacing := some q }, acc.2 ++ ["lineSpacing"])
    | none => acc
  let acc := match a.spaceAbove with
    | some q => ({ acc.1 with spaceAbove := some { magnitude := q, unit := "PT" } },
                 acc.2 ++ ["spaceAbove"])
    | none => acc
  match a.spaceBelow with
  | some q => ({ acc.1 with spaceBelow := some { magnitude := q, unit := "PT" } },
               acc.2 ++ ["spaceBelow"])
  | none => acc

/-- The googledocs_format_paragraph handler: if no optional styling argument
was given it succeeds locally with no client call; otherwise it makes one
client.updateParagraphStyle call. -/
def formatParagraphHandler (a : FormatParagraphArgs) (o : ClientOutcome) :
    ToolEnvelope × List HttpCall :=
  let built := buildFormatParagraphStyle a
  if built.2.isEmpty then
    (formatSuccess "No paragraph formatting changes specified" .emptyObject, [])
  else
    (handlerStep
      (fun r => formatSuccess
        ("Paragraph formatted from " ++ toString a.startIndex ++ " to " ++ toString a.endIndex)
        (.batch r)) o,
     clientCalls emptyDoc
       (.updateParagraphStyle a.documentId a.startIndex a.endIndex built.1
         (String.intercalate "," built.2)))

/-- A document whose single body block ends at index 50, used by concrete
witnesses. -/
def docEnding50 : Document :=
  { documentId := some "doc1",
    body := some { content := some [{ endIndex := some 50 }] } }

end GDocs

namespace GDocs

/-! ## Theorems about the HTTP error classification -/

/-- C1: for every response with status 429 the request helper raises a
RateLimitError whose retry-after value is resolved from the Retry-After
header: the parsed numeric value when the header parses, and 60 when the
header is absent or unparseable (the header "30" yields 30). -/
theorem c1_rate_limit_retry_after :
    (∀ r : HttpResponse, r.status = 429 →
      requestStep r =
        .error (.rateLimited "Rate limit exceeded" (resolveRetryAfter r.retryAfterHeader)))
    ∧ (∀ s n, parseIntJS s = some n → resolveRetryAfter (some s) = n)
    ∧ resolveRetryAfter none = 60
    ∧ (∀ s, parseIntJS s = none → resolveRetryAfter (some s) = 60)
    ∧ resolveRetryAfter (some "30") = 30 := by
  refine ⟨?_, ?_, rfl, ?_, by decide⟩
  · intro r h
    simp [requestStep, h]
  · intro s n h
    by_cases hs : s = ""
    · subst hs
      simp [parseIntJS] at h
    · simp [resolveRetryAfter, retryAfterArg, rateLimitRetryAfter, hs, h]
  · intro s h
    by_cases hs : s = ""
    · subst hs
      simp [resolveRetryAfter, retryAfterArg, rateLimitRetryAfter]
    · simp [resolveRetryAfter, retryAfterArg, rateLimitRetryAfter, hs, h]

/-- C1 witness: a concrete 429 response with header value "30" classifies as
a rate-limit failure carrying retry-after 30. -/
theorem c1_witness :
    requestStep { status := 429, retryAfterHeader := some "30", bodyJson := none } =
      .error (.rateLimited "Rate limit exceeded" 30) := by
  have h := c1_rate_limit_retry_after
  have h1 := h.1 { status := 429, retryAfterHeader := some "30", bodyJson := none } rfl
  rw [h1, h.2.2.2.2]

/-- C4: the request helper classifies every response in the source's fixed
order: 429 is a rate-limit failure; 401 or 403 is an authentication failure
regardless of the body; any other non-2xx status is an API failure carrying
the status and a message taken from the JSON error envelope when available,
else the generic "API error: status" text; 204 is an empty success; any
other 2xx response has its body parsed as JSON. -/
theorem c4_error_classification :
    (∀ r : HttpResponse, r.status = 429 →
      requestStep r =
        .error (.rateLimited "Rate limit exceeded" (resolveRetryAfter r.retryAfterHeader)))
    ∧ (∀ r : HttpResponse, r.status = 401 ∨ r.status = 403 →
      requestStep r = .error (.authFailure "Authentication failed. Check your OAuth access token."))
    ∧ (∀ r : HttpResponse, r.status ≠ 429 → r.status ≠ 401 → r.status ≠ 403 →
      responseOk r.status = false →
      requestStep r = .error (.apiFailure (apiErrorMessage r.bodyJson r.status) r.status))
    ∧ (∀ status : Nat, apiErrorMessage none status = "API error: " ++ toString status)
    ∧ (∀ (status : Nat) (m : String) (tm : Option String), m ≠ "" →
      apiErrorMessage (some { errorMessage := some m, topMessage := tm }) status = m)
    ∧ (∀ r : HttpResponse, r.status = 204 → requestStep r = .ok .empty)
    ∧ (∀ r : HttpResponse, responseOk r.status = true → r.status ≠ 204 →
      requestStep r = .ok .parsed) := by
  refine ⟨?_, ?_, ?_, ?_, ?_, ?_, ?_⟩
  · intro r h
    simp [requestStep, h]
  · intro r h
    rcases h with h | h <;> simp [requestStep, h]
  · intro r h429 h401 h403 hok
    simp [requestStep, h429, h401, h403, hok]
  · intro status
    rfl
  · intro status m tm hm
    simp [apiErrorMessage, jsOrStr, hm]
  · intro r h
    simp [requestStep, h, responseOk]
  · intro r hok h204
    have hb : 200 ≤ r.status ∧ r.status ≤ 299 := by
      simpa [responseOk] using hok
    have h429 : r.status ≠ 429 := by omega
    have h401 : r.status ≠ 401 := by omega
    have h403 : r.status ≠ 403 := by omega
    simp [requestStep, h429, h401, h403, hok, h204]

/-- C4 witness: a 401 response with an arbitrary error body classifies as an
authentication failure, a 500 response with no parseable body carries the
generic message, and a 204 response is an empty success. -/
theorem c4_witness :
    requestStep ⟨401, none, some ⟨some "irrelevant", some "x"⟩⟩ =
      .error (.authFailure "Authentication failed. Check your OAuth access token.")
    ∧ requestStep ⟨500, none, none⟩ = .error (.apiFailure "API error: 500" 500)
    ∧ requestStep ⟨204, none, none⟩ = .ok .empty := by
  have h := c4_error_classification
  refine ⟨h.2.1 _ (Or.inl rfl), ?_, h.2.2.2.2.2.1 _ rfl⟩
  have h500 := h.2.2.1 ⟨500, none, none⟩ (by decide) (by decide) (by decide) (by decide)
  simpa using h500

/-! ## Theorems about appendText -/

/-- C2: for every document whose last body content block carries endIndex e,
appendText first fetches the document and then issues exactly one
insert-text operation, through batchUpdate, at index max(1, e - 1). -/
theorem c2_append_insert_index :
    ∀ (documentId text : String) (doc : Document) (blk : StructuralElement) (e : Int),
      lastContentElement doc = some blk → blk.endIndex = some e →
      clientCalls doc (.appendText documentId text) =
        [.getDoc documentId,
         .postBatchUpdate documentId [.insertText text (max 1 (e - 1))]] := by
  intro documentId text doc blk e hlast hend
  have hjs : jsNumOr (some e) 1 = if e = 0 then 1 else e := by
    simp [jsNumOr]
  have hidx : appendInsertIndex doc = max 1 (e - 1) := by
    unfold appendInsertIndex appendEndIndex
    rw [hlast, Option.some_bind, hend, hjs]
    by_cases h0 : e = 0
    · subst h0
      norm_num
    · simp [h0]
  simp [clientCalls, hidx]

/-- C2 witness: against a document whose last block ends at index 50,
append_text("doc1", "hi") inserts at index 49, not 50. -/
theorem c2_witness :
    clientCalls docEnding50 (.appendText "doc1" "hi") =
      [.getDoc "doc1", .postBatchUpdate "doc1" [.insertText "hi" 49]] := by
  have h := c2_append_insert_index "doc1" "hi" docEnding50 { endIndex := some 50 } 50 rfl rfl
  have h49 : (max 1 ((50 : Int) - 1)) = 49 := by decide
  rw [h, h49]

/-- C8: when the document has no last body content block (body or content
absent, or content empty) appendText falls back to end index 1 and inserts
at index 1; and for every document shape the computed insertion index is at
least 1. -/
theorem c8_append_fallback_and_lower_bound :
    (∀ doc : Document, lastContentElement doc = none → appendInsertIndex doc = 1)
    ∧ (∀ doc : Document, 1 ≤ appendInsertIndex doc)
    ∧ (∀ (documentId text : String) (doc : Document), lastContentElement doc = none →
      clientCalls doc (.appendText documentId text) =
        [.getDoc documentId, .postBatchUpdate documentId [.insertText text 1]]) := by
  have h1 : ∀ doc : Document, lastContentElement doc = none → appendInsertIndex doc = 1 := by
    intro doc h
    unfold appendInsertIndex appendEndIndex
    rw [h]
    decide
  refine ⟨h1, ?_, ?_⟩
  · intro doc
    exact le_max_left 1 _
  · intro documentId text doc h
    simp [clientCalls, h1 doc h]

/-- C8 witness: the empty document (no body at all) yields insertion index 1
and an insert-text operation at index 1. -/
theorem c8_witness :
    appendInsertIndex emptyDoc = 1
    ∧ clientCalls emptyDoc (.appendText "doc1" "hi") =
      [.getDoc "doc1", .postBatchUpdate "doc1" [.insertText "hi" 1]] := by
  have h := c8_append_fallback_and_lower_bound
  exact ⟨h.1 emptyDoc rfl, h.2.2 "doc1" "hi" emptyDoc rfl⟩

/-! ## Theorems about the client call discipline -/

/-- C3 counterexample: createDocument is a client method other than
getDocument that changes remote state, yet its one HTTP call is a
document-creation POST, a mutating request that does not go through
batchUpdate; so batchUpdate is not the sole network-mutating primitive. -/
theorem c3_counterexample :
    ClientMethod.isGetDocument (.createDocument "My Doc") = false
    ∧ clientCalls emptyDoc (.createDocument "My Doc") = [.postDocuments "My Doc"]
    ∧ HttpCall.isMutating (.postDocuments "My Doc") = true
    ∧ HttpCall.isBatchUpdateCall (.postDocuments "My Doc") = false
    ∧ mutatesOnlyThroughBatchUpdate emptyDoc (.createDocument "My Doc") = false :=
  ⟨rfl, rfl, rfl, rfl, rfl⟩

/-- C3 amended: every client method other than getDocument, createDocument
and testConnection (which creates a test document through createDocument)
issues mutating HTTP requests only as batch-update submissions of the
Operation values it constructs. -/
theorem c3_batch_update_sole_mutating_primitive :
    ∀ (fetched : Document) (m : ClientMethod),
      m.isGetDocument = false → m.isCreateDocument = false → m.isTestConnection = false →
      mutatesOnlyThroughBatchUpdate fetched m = true := by
  intro fetched m h1 h2 h3
  cases m <;>
    simp_all [mutatesOnlyThroughBatchUpdate, clientCalls, HttpCall.isMutating,
      HttpCall.isBatchUpdateCall, ClientMethod.isGetDocument,
      ClientMethod.isCreateDocument, ClientMethod.isTestConnection]

/-- C3 witness: the insertText method mutates only through batchUpdate. -/
theorem c3_witness :
    mutatesOnlyThroughBatchUpdate emptyDoc (.insertText "doc1" "hi" 1) = true :=
  c3_batch_update_sole_mutating_primitive emptyDoc (.insertText "doc1" "hi" 1) rfl rfl rfl

/-! ## Theorems about the named-range tool handlers -/

/-- C5 counterexample: with namedRangeId provided as the empty string (and no
name), an identifier is provided, yet the delete_named_range handler rejects
locally and makes no client call, because the source tests JS truthiness
rather than presence; so "when at least one identifier is provided, the
handler proceeds to call the client" fails. -/
theorem c5_counterexample :
    (deleteNamedRangeHandler "doc1" (some "") none (Except.ok sampleResponse)).2 = []
    ∧ (deleteNamedRangeHandler "doc1" (some "") none (Except.ok sampleResponse)).1.isError = true
    ∧ (deleteNamedRangeHandler "doc1" (some "") none (Except.ok sampleResponse)).1.message =
      "Either namedRangeId or name must be provided" := by
  refine ⟨?_, ?_, ?_⟩ <;> rfl

/-- C5 amended: for delete_named_range and replace_named_range_content, when
neither identifier field is provided with a non-empty value the handler
returns a descriptive local error envelope and makes no network call; when
at least one identifier is provided with a non-empty value the handler
proceeds to make exactly one client call. -/
theorem c5_named_range_identifier_guard :
    ∀ (documentId text : String) (a b : Option String) (o : ClientOutcome),
      (jsTruthy a = false → jsTruthy b = false →
        deleteNamedRangeHandler documentId a b o =
          ({ isError := true, message := "Either namedRangeId or name must be provided",
             data := none }, [])
        ∧ replaceNamedRangeContentHandler documentId text a b o =
          ({ isError := true,
             message := "Either namedRangeId or namedRangeName must be provided",
             data := none }, []))
      ∧ ((jsTruthy a || jsTruthy b) = true →
        (deleteNamedRangeHandler documentId a b o).2 =
          [.postBatchUpdate documentId [.deleteNamedRange a b]]
        ∧ (replaceNamedRangeContentHandler documentId text a b o).2 =
          [.postBatchUpdate documentId [.replaceNamedRangeContent a b text]]) := by
  intro documentId text a b o
  constructor
  · intro ha hb
    constructor <;>
      simp [deleteNamedRangeHandler, replaceNamedRangeContentHandler, ha, hb]
  · intro h
    have hg : (!(jsTruthy a) && !(jsTruthy b)) = false := by
      rcases Bool.or_eq_true_iff.mp h with h1 | h1 <;> simp [h1]
    constructor <;>
      simp [deleteNamedRangeHandler, replaceNamedRangeContentHandler, hg, clientCalls]

/-- C5 witness: with no identifier at all both handlers reject locally with
zero calls, and with a non-empty namedRangeId both proceed to one client
call. -/
theorem c5_witness :
    deleteNamedRangeHandler "doc1" none none (Except.ok sampleResponse) =
      ({ isError := true, message := "Either namedRangeId or name must be provided",
         data := none }, [])
    ∧ (deleteNamedRangeHandler "doc1" (some "nr1") none (Except.ok sampleResponse)).2 =
      [.postBatchUpdate "doc1" [.deleteNamedRange (some "nr1") none]] := by
  have h1 := (c5_named_range_identifier_guard "doc1" "T" none none
    (Except.ok sampleResponse)).1 rfl rfl
  have h2 := (c5_named_range_identifier_guard "doc1" "T" (some "nr1") none
    (Except.ok sampleResponse)).2 (by decide)
  exact ⟨h1.1, h2.1⟩

/-- C10 counterexample: with both identifier fields supplied as empty
strings, the delete_named_range handler rejects locally and issues no
batch-update operation at all, so the supplied fields are not forwarded into
a deleteNamedRange operation. -/
theorem c10_counterexample :
    (deleteNamedRangeHandler "doc1" (some "") (some "") (Except.ok sampleResponse)).2 = []
    ∧ (deleteNamedRangeHandler "doc1" (some "") (some "") (Except.ok sampleResponse)).1.isError
      = true := by
  exact ⟨rfl, rfl⟩

/-- C10 amended: when both identifier fields are supplied and at least one is
non-empty, the handler applies no local precedence: both fields are
forwarded verbatim into the single deleteNamedRange (respectively
replaceNamedRangeContent) operation of the one batch-update request. -/
theorem c10_both_identifiers_forwarded :
    ∀ (documentId text a b : String) (o : ClientOutcome),
      (jsTruthy (some a) || jsTruthy (some b)) = true →
      (deleteNamedRangeHandler documentId (some a) (some b) o).2 =
        [.postBatchUpdate documentId [.deleteNamedRange (some a) (some b)]]
      ∧ (replaceNamedRangeContentHandler documentId text (some a) (some b) o).2 =
        [.postBatchUpdate documentId [.replaceNamedRangeContent (some a) (some b) text]] := by
  intro documentId text a b o h
  exact (c5_named_range_identifier_guard documentId text (some a) (some b) o).2 h

/-- C10 witness: with both an id and a name supplied, both fields appear
verbatim in the single operation of the batch-update request. -/
theorem c10_witness :
    (deleteNamedRangeHandler "doc1" (some "nr1") (some "Label") (Except.ok sampleResponse)).2 =
      [.postBatchUpdate "doc1" [.deleteNamedRange (some "nr1") (some "Label")]]
    ∧ (replaceNamedRangeContentHandler "doc1" "T" (some "nr1") (some "Label")
        (Except.ok sampleResponse)).2 =
      [.postBatchUpdate "doc1" [.replaceNamedRangeContent (some "nr1") (some "Label") "T"]] :=
  c10_both_identifiers_forwarded "doc1" "T" "nr1" "Label" (Except.ok sampleResponse) (by decide)

/-! ## Theorems about schema validation and handler totality -/

/-- C6: for every raw googledocs_insert_text input that violates the declared
schema (for example index = 0 against the integer-at-least-1 bound), the
dispatch returns the structured schema rejection and the handler body never
runs: the list of issued HTTP calls is empty. -/
theorem c6_schema_validation_blocks_network :
    ∀ (raw : InsertTextRawInput) (o : ClientOutcome),
      validInsertTextInput raw = false →
      dispatchInsertText raw o = (schemaRejection, []) := by
  intro raw o h
  simp [dispatchInsertText, h]

/-- C6 witness: index = 0 violates the schema and yields the rejection with
zero network calls, for any would-be client outcome. -/
theorem c6_witness :
    dispatchInsertText { documentId := .str "doc1", text := .str "hi", index := .num 0 }
      (Except.ok sampleResponse) = (schemaRejection, []) :=
  c6_schema_validation_blocks_network _ _ (by decide)

/-- C7: the modelled tool handlers are total over every client-call outcome:
whatever the outcome (success or any thrown typed or untyped error), the
handler returns a structured envelope, flagged as an error exactly when the
call failed, built by formatError on every failure and by formatSuccess with
a message and the response data on success. -/
theorem c7_handler_totality :
    ∀ (documentId : String) (requests : List GRequest) (startIndex endIndex : Int)
      (textStyle : TextStyle) (fields : String) (o : ClientOutcome),
      ((batchUpdateHandler documentId requests o).1.isError = !(outcomeOk o))
      ∧ ((updateTextStyleHandler documentId startIndex endIndex textStyle fields o).1.isError
          = !(outcomeOk o))
      ∧ (∀ e, o = .error e →
          (batchUpdateHandler documentId requests o).1 = formatError e
          ∧ (updateTextStyleHandler documentId startIndex endIndex textStyle fields o).1
            = formatError e)
      ∧ (∀ r, o = .ok r →
          (batchUpdateHandler documentId requests o).1 =
            formatSuccess "Batch update completed" (.batch r)) := by
  intro documentId requests startIndex endIndex textStyle fields o
  cases o <;>
    simp [batchUpdateHandler, updateTextStyleHandler, handlerStep, outcomeOk,
      formatError, formatSuccess]

/-- C7 witness: a rate-limit failure of the client call surfaces from the
batch_update handler as a non-throwing error envelope. -/
theorem c7_witness :
    (batchUpdateHandler "doc1" [] (Except.error (.rateLimited "Rate limit exceeded" 60))).1 =
      formatError (.rateLimited "Rate limit exceeded" 60) := by
  have h := c7_handler_totality "doc1" [] 1 2 {} ""
    (Except.error (.rateLimited "Rate limit exceeded" 60))
  exact (h.2.2.1 _ rfl).1

/-- C9: calling format_text (respectively format_paragraph) with none of the
optional styling arguments yields the local success envelope with the
message "No formatting changes specified" (respectively "No paragraph
formatting changes specified") and empty data, and zero client calls, so no
network request is issued. -/
theorem c9_formatting_no_op :
    ∀ (documentId : String) (startIndex endIndex : Int) (o : ClientOutcome),
      formatTextHandler
        { documentId := documentId, startIndex := startIndex, endIndex := endIndex,
          bold := none, italic := none, underline := none, strikethrough := none,
          fontSize := none, fontFamily := none } o =
        (formatSuccess "No formatting changes specified" .emptyObject, [])
      ∧ formatParagraphHandler
        { documentId := documentId, startIndex := startIndex, endIndex := endIndex,
          alignment := none, headingType := none, lineSpacing := none,
          spaceAbove := none, spaceBelow := none } o =
        (formatSuccess "No paragraph formatting changes specified" .emptyObject, []) := by
  intro documentId startIndex endIndex o
  constructor <;>
    rfl

end GDocs
